import Mathlib

/-!
Shallow embedding of `src/routes/v1/rooms.ts` (the equinox message
admission and event-fanout routes): the message-create, message-delete and
typing-signal handlers, together with the admission limiter configuration.

Ids travel through the handlers as the raw strings of the URL parameters,
exactly as in the source (Express `req.params` values are strings and are
passed unconverted into the storage queries and the stored record).
Timestamps (`Date.now()`) are natural numbers.  Storage and bus calls are
abstracted as a `Store` of fallible operations (a rejected promise is an
`Except.error`); each handler additionally records the externally visible
effects of a run as a trace, so that ordering and absence of calls can be
stated.
-/

namespace Equinox

/-- A stored room row, as read by `Room.select` (fields the routes use:
`id`, `type`, `space_id`; `space_id` is nullable in the schema). -/
structure Room where
  id : String
  type : Nat
  space_id : Option String
deriving DecidableEq, Repr

/-- The authenticated caller placed in `res.locals.user` by `verifyToken`
(the fields the routes read).  `presence` is opaque to these routes and is
carried as a plain string. -/
structure User where
  id : String
  username : String
  discriminator : Nat
  global_name : Option String
  avatar : Option String
  bot : Bool
  system : Bool
  presence : String
deriving DecidableEq, Repr

/-- The `IMessage` record built by the create handler and stored by
`Message.insert`.  Field set and defaults follow the object literal at
lines 63–86 of the source. -/
structure IMessage where
  room_id : String
  content : String
  id : String
  author_id : String
  space_id : Option String
  system : Bool
  tts : Bool
  attachments : List String
  embeds : List String
  flags : Nat
  mention_everyone : Bool
  mention_roles : List String
  mention_rooms : List String
  mentions : List String
  message_reference_id : Option String
  pinned : Bool
  reactions : List String
  stickers : List String
  thread_id : Option String
  webhook_id : Option String
  edited_at : Option Nat
  created_at : Nat
deriving DecidableEq, Repr

/-- The author object embedded in the `message_create` event payload
(lines 104–113 of the source); it carries `presence`. -/
structure AuthorFull where
  id : String
  username : String
  discriminator : Nat
  global_name : Option String
  display_name : String
  avatar : Option String
  bot : Bool
  presence : String
deriving DecidableEq, Repr

/-- The author/user object embedded in the `message_delete` and
`typing_start` event payloads (lines 178–186 and 227–235); no `presence`
field. -/
structure AuthorBasic where
  id : String
  username : String
  display_name : String
  discriminator : Nat
  global_name : Option String
  avatar : Option String
  bot : Bool
deriving DecidableEq, Repr

/-- `data` of the `message_create` envelope (lines 96–114). -/
structure MessageCreateData where
  room_type : Nat
  space_id : Option String
  room_id : String
  content : String
  message_reference_id : Option String
  id : String
  created_at : Nat
  author : AuthorFull
deriving DecidableEq, Repr

/-- `data` of the `message_delete` envelope (lines 173–187). -/
structure MessageDeleteData where
  id : String
  room_id : String
  space_id : Option String
  content : String
  author : AuthorBasic
deriving DecidableEq, Repr

/-- `data` of the `typing_start` envelope (lines 224–236). -/
structure TypingStartData where
  room_id : String
  space_id : Option String
  user : AuthorBasic
deriving DecidableEq, Repr

/-- A published event envelope `{event, data}`; the `event` discriminator
string is the constructor. -/
inductive Event where
  | messageCreate (d : MessageCreateData)
  | messageDelete (d : MessageDeleteData)
  | typingStart (d : TypingStartData)
deriving DecidableEq, Repr

/-- HTTP response bodies the routes produce: `{message: s}` for errors and
for typing's `{message:"OK"}`, the created message plus `nonce: 0`, and the
delete route's `{status:"Sent"}`. -/
inductive Body where
  | msg (s : String)
  | created (m : IMessage) (nonce : Nat)
  | sent
deriving DecidableEq, Repr

/-- An HTTP response: status + body. -/
structure Response where
  status : Nat
  body : Body
deriving DecidableEq, Repr

/-- Externally visible actions of one request, in the order the handler
performs them: storage reads/writes, bus publishes, the response send, and
the snowflake-generator call. -/
inductive Effect where
  | roomSelect (id : String)
  | messageSelect (id : String)
  | messageInsert (m : IMessage)
  | messageDelete (id : String) (created_at : Nat) (room_id : String)
  | publish (channel : String) (ev : Event)
  | respond (r : Response)
  | snowflake (worker : Nat)
deriving DecidableEq, Repr

/-- A JavaScript request-body value, as far as the content checks look at
it: the create handler tests `!content`, `typeof content !== "string"` and
`content.length`. -/
inductive JsVal where
  | undef
  | null
  | boolV (b : Bool)
  | numV (n : Int)
  | strV (s : String)
deriving DecidableEq, Repr

/-- JavaScript falsiness, as tested by `!content` (line 36).  `undefined`,
`null`, `false`, `0` and `""` are falsy.  (`NaN` is not representable in
this integer model; no claim depends on it.) -/
def jsFalsy : JsVal → Bool
  | .undef => true
  | .null => true
  | .boolV b => !b
  | .numV n => n == 0
  | .strV s => s == ""

/-- Numeric value of a block of decimal digits. -/
def digitsToNat (cs : List Char) : Nat :=
  cs.foldl (fun a c => a * 10 + (c.toNat - 48)) 0

/-- JavaScript `parseInt(s)` restricted to decimal inputs, which is all the
routes feed it: skip leading spaces, accept an optional sign, then parse the
longest leading run of digits; `none` models `NaN` (no digit found).  Note
that a leading `-` is accepted, and trailing garbage after the digits is
ignored, exactly as in JavaScript. -/
def parseIntJS (s : String) : Option Int :=
  let core : List Char → Option Nat := fun l =>
    let ds := l.takeWhile Char.isDigit
    if ds.isEmpty then none else some (digitsToNat ds)
  match s.data.dropWhile (· = ' ') with
  | '-' :: rest => (core rest).map (fun n => -(n : Int))
  | '+' :: rest => (core rest).map (fun n => (n : Int))
  | cs => (core cs).map (fun n => (n : Int))

/-- The storage and bus operations the routes await, as fallible calls
(`Except.error` models a rejected promise).  `roomSelect` and
`messageSelect` return the row list of a `$limit 1` equality select;
`messageDelete` takes the exact `(id, created_at, room_id)` triple of the
source's `$where`. -/
structure Store where
  roomSelect : String → Except String (List Room)
  messageSelect : String → Except String (List IMessage)
  messageInsert : IMessage → Except String Unit
  messageDelete : String → Nat → String → Except String Unit
  publish : String → Event → Except String Unit

/-- A store over in-memory tables that never fails: selects filter by id
with `$limit 1`; writes and publishes succeed. -/
def pureStore (rooms : List Room) (messages : List IMessage) : Store where
  roomSelect id := .ok ((rooms.filter (fun r => r.id == id)).take 1)
  messageSelect id := .ok ((messages.filter (fun m => m.id == id)).take 1)
  messageInsert _ := .ok ()
  messageDelete _ _ _ := .ok ()
  publish _ _ := .ok ()

/-- Modelled from the spec: the process-wide message worker id comes from
`src/config`, which is not part of the provided sources; its concrete value
is irrelevant to every claim (only the fact that the generator is invoked
with it matters). -/
def MESSAGE_WORKER_ID : Nat := 0

/-- The `IMessage` literal the create handler builds (lines 63–86):
`room_id` is the raw URL parameter, `space_id` is denormalized from the
room (`room.space_id!` is a TypeScript non-null assertion with no runtime
effect, so the nullable value passes through), reserved fields default to
empty/false/null, `created_at` is `Date.now()`. -/
def buildMessage (room_id content message_id : String) (user : User)
    (room : Room) (mref : Option String) (now : Nat) : IMessage where
  room_id := room_id
  content := content
  id := message_id
  author_id := user.id
  space_id := room.space_id
  system := user.system
  tts := false
  attachments := []
  embeds := []
  flags := 0
  mention_everyone := false
  mention_roles := []
  mention_rooms := []
  mentions := []
  message_reference_id := mref
  pinned := false
  reactions := []
  stickers := []
  thread_id := none
  webhook_id := none
  edited_at := none
  created_at := now

/-- Author payload of `message_create` (lines 104–113); `display_name` is
`global_name ?? username`. -/
def createAuthor (user : User) : AuthorFull where
  id := user.id
  username := user.username
  discriminator := user.discriminator
  global_name := user.global_name
  display_name := user.global_name.getD user.username
  avatar := user.avatar
  bot := user.bot
  presence := user.presence

/-- Author/user payload of `message_delete` and `typing_start`
(lines 178–186, 227–235). -/
def basicAuthor (user : User) : AuthorBasic where
  id := user.id
  username := user.username
  display_name := user.global_name.getD user.username
  discriminator := user.discriminator
  global_name := user.global_name
  avatar := user.avatar
  bot := user.bot

/-- `data` of the `message_create` publish (lines 96–114): room fields come
from the resolved room, `content`/`message_reference_id` from the request,
`id`/`created_at` from the freshly built message. -/
def createEventData (room : Room) (content : String) (mref : Option String)
    (message_id : String) (created_at : Nat) (user : User) : MessageCreateData where
  room_type := room.type
  space_id := room.space_id
  room_id := room.id
  content := content
  message_reference_id := mref
  id := message_id
  created_at := created_at
  author := createAuthor user

/-- `data` of the `message_delete` publish (lines 173–187): `id` and
`content` come from the looked-up message, but `room_id` and `space_id`
come from the room resolved from the URL, and `author` is the deleting
caller. -/
def deleteEventData (message : IMessage) (room : Room) (user : User) : MessageDeleteData where
  id := message.id
  room_id := room.id
  space_id := room.space_id
  content := message.content
  author := basicAuthor user

/-- `data` of the `typing_start` publish (lines 224–236). -/
def typingEventData (room : Room) (user : User) : TypingStartData where
  room_id := room.id
  space_id := room.space_id
  user := basicAuthor user

/-- POST `/:room_id/messages` (lines 24–124).  Checks in source order:
`isNaN(parseInt(room_id))`, `!content`, `typeof content !== "string"`,
`content.length > 1024`; then the room lookup, the snowflake call, and the
`switch (room.type)` whose only non-default case is `1`: insert, respond
`200`, publish `message_create`.  The create route has no try/catch, so a
failing await surfaces as `Except.error` (the request produces no
response). -/
def createHandler (st : Store) (room_id : String) (content : JsVal)
    (mref : Option String) (user : User) (now : Nat) (nextId : String) :
    Except String (Response × List Effect) :=
  if (parseIntJS room_id).isNone then
    let r : Response := ⟨400, .msg "Invalid room id"⟩
    .ok (r, [.respond r])
  else if jsFalsy content then
    let r : Response := ⟨400, .msg "You must provide content for your message."⟩
    .ok (r, [.respond r])
  else match content with
    | .strV c =>
      if c.length > 1024 then
        let r : Response := ⟨400, .msg "Message content must be less than 1,024 characters long."⟩
        .ok (r, [.respond r])
      else
        match st.roomSelect room_id with
        | .error e => .error e
        | .ok rooms =>
          match rooms.head? with
          | none =>
            let r : Response := ⟨404, .msg "The room you were looking for does not exist."⟩
            .ok (r, [.roomSelect room_id, .respond r])
          | some room =>
            -- `const message_id = generateSnowflake(MESSAGE_WORKER_ID)` runs
            -- before the switch; the generator (helpers/generator, outside
            -- these sources) is an oracle supplying `nextId`.
            let message_id := nextId
            -- `switch (room.type)` has exactly one case, `1`, and a default.
            if room.type = 1 then
              let message := buildMessage room_id c message_id user room mref now
              match st.messageInsert message with
              | .error e => .error e
              | .ok _ =>
                let r : Response := ⟨200, .created message 0⟩
                let ev : Event := .messageCreate (createEventData room c mref message_id message.created_at user)
                match st.publish "stargate" ev with
                | .error e => .error e
                | .ok _ =>
                  .ok (r, [.roomSelect room_id, .snowflake MESSAGE_WORKER_ID,
                           .messageInsert message, .respond r, .publish "stargate" ev])
            else
              let r : Response := ⟨400, .msg "This room does not support message sending."⟩
              .ok (r, [.roomSelect room_id, .snowflake MESSAGE_WORKER_ID, .respond r])
    | _ =>
      let r : Response := ⟨400, .msg "Message content must be a string."⟩
      .ok (r, [.respond r])

/-- The body of DELETE `/:room_id/messages/:message_id` inside its `try`
(lines 132–193): validate both ids, resolve the room (404 on miss), select
the message **by id alone** with `$limit 1` (404 on miss), delete by the
exact `(id, created_at, room_id)` triple re-derived from the found message,
publish `message_delete`, then respond `202 {status:"Sent"}`. -/
def deleteFlowBody (st : Store) (room_id message_id : String) (user : User) :
    Except String (Response × List Effect) :=
  if (parseIntJS room_id).isNone then
    let r : Response := ⟨400, .msg "Invalid room ID."⟩
    .ok (r, [.respond r])
  else if (parseIntJS message_id).isNone then
    let r : Response := ⟨400, .msg "Invalid message ID."⟩
    .ok (r, [.respond r])
  else
    match st.roomSelect room_id with
    | .error e => .error e
    | .ok rooms =>
      match rooms.head? with
      | none =>
        let r : Response := ⟨404, .msg "The room you were looking for does not exist."⟩
        .ok (r, [.roomSelect room_id, .respond r])
      | some room =>
        match st.messageSelect message_id with
        | .error e => .error e
        | .ok messages =>
          match messages.head? with
          | none =>
            let r : Response := ⟨404, .msg "The message you were looking for does not exist."⟩
            .ok (r, [.roomSelect room_id, .messageSelect message_id, .respond r])
          | some message =>
            match st.messageDelete message.id message.created_at message.room_id with
            | .error e => .error e
            | .ok _ =>
              let ev : Event := .messageDelete (deleteEventData message room user)
              match st.publish "stargate" ev with
              | .error e => .error e
              | .ok _ =>
                let r : Response := ⟨202, .sent⟩
                .ok (r, [.roomSelect room_id, .messageSelect message_id,
                         .messageDelete message.id message.created_at message.room_id,
                         .publish "stargate" ev, .respond r])

/-- DELETE `/:room_id/messages/:message_id` with its try/catch boundary
(lines 126–199): a thrown error is logged (`console.error`) and converted
into `500 {message:"Interal Server Error"}` (sic).  Result: the response,
the effect trace of the completed body (empty when it threw), and the log
of caught errors. -/
def deleteHandler (st : Store) (room_id message_id : String) (user : User) :
    Response × List Effect × List String :=
  match deleteFlowBody st room_id message_id user with
  | .ok (r, tr) => (r, tr, [])
  | .error e => (⟨500, .msg "Interal Server Error"⟩, [], [e])

/-- The body of POST `/:room_id/typing` inside its `try` (lines 207–241):
no id validation at all — the room lookup runs on the raw parameter; 404 on
miss, else publish `typing_start` and respond `204 {message:"OK"}`. -/
def typingFlowBody (st : Store) (room_id : String) (user : User) :
    Except String (Response × List Effect) :=
  match st.roomSelect room_id with
  | .error e => .error e
  | .ok rooms =>
    match rooms.head? with
    | none =>
      let r : Response := ⟨404, .msg "The room you were looking for does not exist."⟩
      .ok (r, [.roomSelect room_id, .respond r])
    | some room =>
      let ev : Event := .typingStart (typingEventData room user)
      match st.publish "stargate" ev with
      | .error e => .error e
      | .ok _ =>
        let r : Response := ⟨204, .msg "OK"⟩
        .ok (r, [.roomSelect room_id, .publish "stargate" ev, .respond r])

/-- POST `/:room_id/typing` with its try/catch boundary (lines 201–247):
errors are logged and become `500 {message:"Interal Server Error"}`. -/
def typingHandler (st : Store) (room_id : String) (user : User) :
    Response × List Effect × List String :=
  match typingFlowBody st room_id user with
  | .ok (r, tr) => (r, tr, [])
  | .error e => (⟨500, .msg "Interal Server Error"⟩, [], [e])

/-! ### Admission limiter

`messageCreateLimit` (lines 16–22) configures the external
`express-rate-limit` middleware with `windowMs: 1 * 100`, `max: 50`, keyed
by the raw `authorization` header.  The middleware itself is a dependency,
not part of these sources, so its admission semantics are modelled from the
spec. -/

/-- The limiter window in milliseconds: `windowMs: 1 * 100` (line 17). -/
def limiterWindowMs : Nat := 1 * 100

/-- The limiter cap: `max: 50` (line 18). -/
def limiterMax : Nat := 50

/-- The limiter key: the raw `authorization` header value
(`keyGenerator`, lines 19–21). -/
def limiterKey (authorizationHeader : String) : String := authorizationHeader

/-- Modelled from the spec: the number of already-admitted attempts (their
timestamps) still inside the rolling window at time `t` — those less than
`limiterWindowMs` old.  (Attempts arrive in nondecreasing time order, so
admitted timestamps never exceed `t`.) -/
def windowCount (admitted : List Nat) (t : Nat) : Nat :=
  (admitted.filter (fun s => decide (t < s + limiterWindowMs))).length

/-- Modelled from the spec (§4.2 AdmissionLimiter): the external
`express-rate-limit` dependency is absent from these sources, so admission
is modelled as the spec's rolling-window policy — an attempt at time `t` is
admitted iff fewer than `limiterMax` attempts were admitted within the last
`limiterWindowMs` milliseconds.  Given the already-admitted timestamps and
the attempt times of one identity (one `authorization` header value, in
arrival order), returns the per-attempt admit/deny decisions. -/
def runLimiter (admitted : List Nat) : List Nat → List Bool
  | [] => []
  | t :: ts =>
    if windowCount admitted t < limiterMax then
      true :: runLimiter (t :: admitted) ts
    else
      false :: runLimiter admitted ts

/-- The attempt times of one identity, selected by the limiter key from a
timestamped attempt sequence. -/
def attemptsOf (key : String) (attempts : List (Nat × String)) : List Nat :=
  (attempts.filter (fun a => a.2 == limiterKey key)).map (fun a => a.1)

/-- Modelled from the spec: decisions of `messageCreateLimit` for the
attempts of one identity within a timestamped attempt sequence. -/
def limiterDecisions (key : String) (attempts : List (Nat × String)) : List Bool :=
  runLimiter [] (attemptsOf key attempts)

/-- The create endpoint as mounted: `messageCreateLimit` runs before the
handler, so a denied attempt is answered by the middleware (429, the
dependency's stock body) and the handler — and with it every storage, bus
and generator call — never runs. -/
def createEndpoint (allowed : Bool) (st : Store) (room_id : String)
    (content : JsVal) (mref : Option String) (user : User) (now : Nat)
    (nextId : String) : Except String (Response × List Effect) :=
  if allowed then
    createHandler st room_id content mref user now nextId
  else
    let r : Response := ⟨429, .msg "Too many requests, please try again later."⟩
    .ok (r, [.respond r])

/-! ### Trace predicates -/

/-- Is an effect a durable-persistence attempt (insert or delete)? -/
def isPersist : Effect → Bool
  | .messageInsert _ => true
  | .messageDelete _ _ _ => true
  | _ => false

/-- Is an effect a bus publication? -/
def isPublish : Effect → Bool
  | .publish _ _ => true
  | _ => false

/-- Is an effect the sending of a response? -/
def isRespond : Effect → Bool
  | .respond _ => true
  | _ => false

/-- Is an effect a storage call (select, insert or delete)? -/
def isStorage : Effect → Bool
  | .roomSelect _ => true
  | .messageSelect _ => true
  | .messageInsert _ => true
  | .messageDelete _ _ _ => true
  | _ => false

/-- Is an effect the snowflake-generator call? -/
def isSnowflake : Effect → Bool
  | .snowflake _ => true
  | _ => false

/-- Index of the first effect satisfying `p` in a trace. -/
def idxOf (p : Effect → Bool) : List Effect → Option Nat
  | [] => none
  | e :: tr => if p e then some 0 else (idxOf p tr).map (· + 1)

/-- Status of the response of a completed (non-throwing) run of the create
flow; `none` when the run threw. -/
def respStatus (x : Except String (Response × List Effect)) : Option Nat :=
  match x with
  | .ok (r, _) => some r.status
  | .error _ => none

/-- Effect trace of a completed (non-throwing) run of the create flow;
empty when the run threw. -/
def traceOf (x : Except String (Response × List Effect)) : List Effect :=
  match x with
  | .ok (_, tr) => tr
  | .error _ => []

/-! ### Concrete fixtures for counterexamples and witnesses -/

/-- A sample authenticated caller. -/
def sampleUser : User where
  id := "100"
  username := "alice"
  discriminator := 7
  global_name := some "Alice"
  avatar := some "a.png"
  bot := false
  system := false
  presence := "online"

/-- A second caller, distinct from any message author used in fixtures. -/
def sampleDeleter : User where
  id := "200"
  username := "bob"
  discriminator := 9
  global_name := none
  avatar := none
  bot := false
  system := false
  presence := "idle"

/-- A standard text room (type 1) with id `"1"`. -/
def room1 : Room := ⟨"1", 1, some "10"⟩

/-- A room of unsupported type 2 with id `"2"`. -/
def room2 : Room := ⟨"2", 2, some "10"⟩

/-- A third room with id `"3"`, the true home of `msgOther`. -/
def room3 : Room := ⟨"3", 1, some "11"⟩

/-- A stored message whose `room_id` is `"3"` — it lives in `room3`, not
`room1`. -/
def msgOther : IMessage :=
  buildMessage "3" "hello from room 3" "9" sampleUser room3 none 5

/-- A stored message living in `room1`. -/
def msgHome : IMessage :=
  buildMessage "1" "hello" "8" sampleUser room1 none 4

/-- 51 create attempts of one identity (`authorization` header `"tok"`),
all timestamped inside the window `[0, 100)`. -/
def attempts51 : List (Nat × String) :=
  (List.range 51).map (fun i => (i, "tok"))

/-- 50 create attempts of the same identity. -/
def attempts50 : List (Nat × String) :=
  (List.range 50).map (fun i => (i, "tok"))

/-- A store whose room select always rejects, for exercising the try/catch
boundaries. -/
def failingStore : Store where
  roomSelect _ := .error "storage failure"
  messageSelect _ := .error "storage failure"
  messageInsert _ := .error "storage failure"
  messageDelete _ _ _ := .error "storage failure"
  publish _ _ := .error "storage failure"

/-! ### Success-path characterizations (shared helper lemmas) -/

/-- On the create success path — all validations pass, the room resolves
with type 1, and insert and publish succeed — the handler produces the
`200` response and the effect trace insert → respond → publish. -/
theorem createHandler_success (st : Store) (room_id c : String)
    (mref : Option String) (user : User) (now : Nat) (nextId : String)
    (rl : List Room) (room : Room)
    (h1 : (parseIntJS room_id).isNone = false)
    (h2 : c ≠ "") (h3 : ¬ c.length > 1024)
    (h4 : st.roomSelect room_id = .ok rl) (h5 : rl.head? = some room)
    (h6 : room.type = 1)
    (h7 : st.messageInsert (buildMessage room_id c nextId user room mref now) = .ok ())
    (h8 : st.publish "stargate"
        (.messageCreate (createEventData room c mref nextId now user)) = .ok ()) :
    createHandler st room_id (.strV c) mref user now nextId =
      .ok (⟨200, .created (buildMessage room_id c nextId user room mref now) 0⟩,
           [.roomSelect room_id, .snowflake MESSAGE_WORKER_ID,
            .messageInsert (buildMessage room_id c nextId user room mref now),
            .respond ⟨200, .created (buildMessage room_id c nextId user room mref now) 0⟩,
            .publish "stargate" (.messageCreate (createEventData room c mref nextId now user))]) := by
  have hf : jsFalsy (.strV c) = false := by
    simp [jsFalsy, h2]
  simp only [createHandler, h1, hf, Bool.false_eq_true, if_false, h3, h4, h5, h6, if_true,
    ite_false, ite_true]
  split
  · rename_i e heq
    exact absurd (h7.symm.trans heq) (fun h => Except.noConfusion h)
  · rename_i a heq
    split
    · rename_i e heq2
      exact absurd (h8.symm.trans heq2) (fun h => Except.noConfusion h)
    · rename_i a2 heq2
      rfl

/-- When the validations pass but the room lookup comes back empty, the
create handler responds `404` after the one storage read. -/
theorem createHandler_room_miss (st : Store) (room_id c : String)
    (mref : Option String) (user : User) (now : Nat) (nextId : String)
    (rl : List Room)
    (h1 : (parseIntJS room_id).isNone = false)
    (h2 : c ≠ "") (h3 : ¬ c.length > 1024)
    (h4 : st.roomSelect room_id = .ok rl) (h5 : rl.head? = none) :
    createHandler st room_id (.strV c) mref user now nextId =
      .ok (⟨404, .msg "The room you were looking for does not exist."⟩,
           [.roomSelect room_id,
            .respond ⟨404, .msg "The room you were looking for does not exist."⟩]) := by
  have hf : jsFalsy (.strV c) = false := by
    simp [jsFalsy, h2]
  simp only [createHandler, h1, hf, Bool.false_eq_true, if_false, h3, h4, h5,
    ite_false, ite_true]

/-- When the validations pass and the room resolves but its type is not
`1`, the create handler takes the switch's default branch: `400`
unsupported, after the room read and the snowflake call, with no insert and
no publish. -/
theorem createHandler_unsupported (st : Store) (room_id c : String)
    (mref : Option String) (user : User) (now : Nat) (nextId : String)
    (rl : List Room) (room : Room)
    (h1 : (parseIntJS room_id).isNone = false)
    (h2 : c ≠ "") (h3 : ¬ c.length > 1024)
    (h4 : st.roomSelect room_id = .ok rl) (h5 : rl.head? = some room)
    (h6 : room.type ≠ 1) :
    createHandler st room_id (.strV c) mref user now nextId =
      .ok (⟨400, .msg "This room does not support message sending."⟩,
           [.roomSelect room_id, .snowflake MESSAGE_WORKER_ID,
            .respond ⟨400, .msg "This room does not support message sending."⟩]) := by
  have hf : jsFalsy (.strV c) = false := by
    simp [jsFalsy, h2]
  simp only [createHandler, h1, hf, Bool.false_eq_true, if_false, h3, h4, h5, h6,
    ite_false, ite_true]

/-- On the delete success path — both ids parse, the room resolves, the
message is found by id alone — the flow body deletes by the exact
`(id, created_at, room_id)` triple of the stored message, publishes
`message_delete`, and then responds `202`. -/
theorem deleteFlowBody_success (st : Store) (room_id message_id : String)
    (user : User) (rl : List Room) (room : Room) (ml : List IMessage)
    (message : IMessage)
    (h1 : (parseIntJS room_id).isNone = false)
    (h2 : (parseIntJS message_id).isNone = false)
    (h3 : st.roomSelect room_id = .ok rl) (h4 : rl.head? = some room)
    (h5 : st.messageSelect message_id = .ok ml) (h6 : ml.head? = some message)
    (h7 : st.messageDelete message.id message.created_at message.room_id = .ok ())
    (h8 : st.publish "stargate" (.messageDelete (deleteEventData message room user)) = .ok ()) :
    deleteFlowBody st room_id message_id user =
      .ok (⟨202, .sent⟩,
           [.roomSelect room_id, .messageSelect message_id,
            .messageDelete message.id message.created_at message.room_id,
            .publish "stargate" (.messageDelete (deleteEventData message room user)),
            .respond ⟨202, .sent⟩]) := by
  simp only [deleteFlowBody, h1, h2, Bool.false_eq_true, if_false, h3, h4, h5, h6, h7, h8,
    ite_false]

/-- The delete handler on the success path: same response and trace as the
body, nothing logged. -/
theorem deleteHandler_success (st : Store) (room_id message_id : String)
    (user : User) (rl : List Room) (room : Room) (ml : List IMessage)
    (message : IMessage)
    (h1 : (parseIntJS room_id).isNone = false)
    (h2 : (parseIntJS message_id).isNone = false)
    (h3 : st.roomSelect room_id = .ok rl) (h4 : rl.head? = some room)
    (h5 : st.messageSelect message_id = .ok ml) (h6 : ml.head? = some message)
    (h7 : st.messageDelete message.id message.created_at message.room_id = .ok ())
    (h8 : st.publish "stargate" (.messageDelete (deleteEventData message room user)) = .ok ()) :
    deleteHandler st room_id message_id user =
      (⟨202, .sent⟩,
       [.roomSelect room_id, .messageSelect message_id,
        .messageDelete message.id message.created_at message.room_id,
        .publish "stargate" (.messageDelete (deleteEventData message room user)),
        .respond ⟨202, .sent⟩], []) := by
  simp only [deleteHandler,
    deleteFlowBody_success st room_id message_id user rl room ml message h1 h2 h3 h4 h5 h6 h7 h8]

/-! ### Limiter lemmas -/

/-- The in-window count never exceeds the number of admitted attempts. -/
theorem windowCount_le (admitted : List Nat) (t : Nat) :
    windowCount admitted t ≤ admitted.length :=
  List.length_filter_le _ _

/-- If the total of already-admitted and remaining attempts is within the
cap, every remaining attempt is admitted. -/
theorem runLimiter_all_admitted :
    ∀ (ts admitted : List Nat), admitted.length + ts.length ≤ limiterMax →
      runLimiter admitted ts = List.replicate ts.length true := by
  intro ts
  induction ts with
  | nil => intro admitted _; rfl
  | cons t ts ih =>
    intro admitted h
    have hcond : windowCount admitted t < limiterMax := by
      have := windowCount_le admitted t
      simp [List.length_cons] at h
      omega
    simp only [runLimiter, hcond, if_true, List.length_cons, List.replicate_succ,
      List.cons.injEq, true_and, ite_true]
    exact ih (t :: admitted) (by simp [List.length_cons] at h ⊢; omega)

/-- When every admitted attempt and the probe time lie in one window
`[t0, t0 + limiterWindowMs)`, the in-window count is the full admitted
count. -/
theorem windowCount_full (admitted : List Nat) (t0 t : Nat)
    (hA : ∀ s ∈ admitted, t0 ≤ s ∧ s < t0 + limiterWindowMs)
    (ht : t0 ≤ t ∧ t < t0 + limiterWindowMs) :
    windowCount admitted t = admitted.length := by
  unfold windowCount
  have : admitted.filter (fun s => decide (t < s + limiterWindowMs)) = admitted := by
    apply List.filter_eq_self.mpr
    intro s hs
    have h1 := hA s hs
    simp only [decide_eq_true_eq]
    omega
  rw [this]

/-- Window bound: starting from any admitted set inside the window, the
attempts of one window can push the total admitted count at most to the
cap (or leave it unchanged if already at or above it). -/
theorem runLimiter_window_bound :
    ∀ (ts admitted : List Nat) (t0 : Nat),
      (∀ s ∈ admitted, t0 ≤ s ∧ s < t0 + limiterWindowMs) →
      (∀ t ∈ ts, t0 ≤ t ∧ t < t0 + limiterWindowMs) →
      admitted.length + (runLimiter admitted ts).count true ≤
        max admitted.length limiterMax := by
  intro ts
  induction ts with
  | nil =>
    intro admitted t0 _ _
    simp [runLimiter]
  | cons t ts ih =>
    intro admitted t0 hA hT
    have ht : t0 ≤ t ∧ t < t0 + limiterWindowMs := hT t (List.mem_cons_self _ _)
    have hts : ∀ u ∈ ts, t0 ≤ u ∧ u < t0 + limiterWindowMs :=
      fun u hu => hT u (List.mem_cons_of_mem _ hu)
    have hwc : windowCount admitted t = admitted.length :=
      windowCount_full admitted t0 t hA ht
    by_cases hcond : windowCount admitted t < limiterMax
    · have hA' : ∀ s ∈ t :: admitted, t0 ≤ s ∧ s < t0 + limiterWindowMs := by
        intro s hs
        rcases List.mem_cons.mp hs with h | h
        · exact h ▸ ht
        · exact hA s h
      have hlen : admitted.length < limiterMax := hwc ▸ hcond
      have := ih (t :: admitted) t0 hA' hts
      simp only [List.length_cons] at this
      simp [runLimiter, hcond, List.count_cons]
      omega
    · have := ih admitted t0 hA hts
      simp [runLimiter, hcond, List.count_cons]
      omega

/-- The limiter emits one decision per attempt. -/
theorem runLimiter_length :
    ∀ (ts admitted : List Nat), (runLimiter admitted ts).length = ts.length := by
  intro ts
  induction ts with
  | nil => intro admitted; rfl
  | cons t ts ih =>
    intro admitted
    by_cases hcond : windowCount admitted t < limiterMax <;>
      simp [runLimiter, hcond, ih]

/-- A boolean list whose `true`-count falls short of its length contains a
`false`. -/
theorem count_true_lt_mem_false :
    ∀ l : List Bool, l.count true < l.length → false ∈ l := by
  intro l
  induction l with
  | nil => simp
  | cons b l ih =>
    cases b
    · intro _
      exact List.mem_cons_self _ _
    · intro h
      simp [List.count_cons] at h
      exact List.mem_cons_of_mem _ (ih (by omega))

/-! ### Claim C1 — delete key and cross-room delete requests -/

/-- Claim C1 counterexample: the claim asserts that a delete request whose
message id exists under a different room than the URL's room id is rejected
as not-found.  On the code it is not: with rooms `"1"` and `"3"` stored and
message `"9"` living in room `"3"`, the request `DELETE /1/messages/9`
succeeds with `202` and issues the storage delete for that row — the
message is looked up by id alone and its stored key is used, with no
comparison against the URL's room. -/
theorem C1_cross_room_counterexample :
    msgOther.room_id = "3" ∧
    (deleteHandler (pureStore [room1, room3] [msgOther]) "1" "9" sampleDeleter).1.status = 202 ∧
    Effect.messageDelete "9" 5 "3" ∈
      (deleteHandler (pureStore [room1, room3] [msgOther]) "1" "9" sampleDeleter).2.1 := by
  decide

/-- Claim C1, amended: the stored message is deleted only by its exact
`(id, created_at, room_id)` key, re-derived from the record found by id
alone; but a delete request whose message id exists under a different room
than the URL's room id is not rejected — it succeeds with `202` and deletes
that message by its own stored key. -/
theorem C1_delete_exact_triple (st : Store) (room_id message_id : String)
    (user : User) (rl : List Room) (room : Room) (ml : List IMessage)
    (message : IMessage)
    (h1 : (parseIntJS room_id).isNone = false)
    (h2 : (parseIntJS message_id).isNone = false)
    (h3 : st.roomSelect room_id = .ok rl) (h4 : rl.head? = some room)
    (h5 : st.messageSelect message_id = .ok ml) (h6 : ml.head? = some message)
    (h7 : st.messageDelete message.id message.created_at message.room_id = .ok ())
    (h8 : st.publish "stargate" (.messageDelete (deleteEventData message room user)) = .ok ()) :
    (deleteHandler st room_id message_id user).1 = ⟨202, .sent⟩ ∧
    Effect.messageDelete message.id message.created_at message.room_id ∈
      (deleteHandler st room_id message_id user).2.1 ∧
    ∀ i cr rid, Effect.messageDelete i cr rid ∈ (deleteHandler st room_id message_id user).2.1 →
      i = message.id ∧ cr = message.created_at ∧ rid = message.room_id := by
  rw [deleteHandler_success st room_id message_id user rl room ml message h1 h2 h3 h4 h5 h6 h7 h8]
  refine ⟨rfl, by simp, ?_⟩
  intro i cr rid h
  simpa using h

/-- Claim C1 witness: the amended theorem applied to a concrete store
holding `room1` and the message `msgOther` of room `"3"`, deleted through
room `"1"`'s URL. -/
theorem C1_delete_exact_triple_witness :
    (deleteHandler (pureStore [room1, room3] [msgOther]) "1" "9" sampleDeleter).1 = ⟨202, .sent⟩ ∧
    Effect.messageDelete msgOther.id msgOther.created_at msgOther.room_id ∈
      (deleteHandler (pureStore [room1, room3] [msgOther]) "1" "9" sampleDeleter).2.1 :=
  have h := C1_delete_exact_triple (pureStore [room1, room3] [msgOther]) "1" "9" sampleDeleter
    [room1] room1 [msgOther] msgOther (by decide) (by decide) rfl rfl rfl rfl rfl rfl
  ⟨h.1, h.2.1⟩

/-! ### Claim C2 — persist / respond / publish ordering -/

/-- Claim C2 counterexample: the claim asserts that on every success path
the response is sent before publication is attempted, for the delete flow
as for the create flow.  On the code the delete flow publishes
`message_delete` (index 3 of the trace) before sending the `202` response
(index 4). -/
theorem C2_delete_publishes_before_responding :
    (deleteHandler (pureStore [room1] [msgHome]) "1" "8" sampleDeleter).1.status = 202 ∧
    idxOf isPersist (deleteHandler (pureStore [room1] [msgHome]) "1" "8" sampleDeleter).2.1 = some 2 ∧
    idxOf isPublish (deleteHandler (pureStore [room1] [msgHome]) "1" "8" sampleDeleter).2.1 = some 3 ∧
    idxOf isRespond (deleteHandler (pureStore [room1] [msgHome]) "1" "8" sampleDeleter).2.1 = some 4 := by
  decide

/-- Claim C2, amended: on the create success path persistence is attempted
before the success response is sent and the response is sent before
publication is attempted; the delete success path keeps persistence first
but attempts publication before sending its success response. -/
theorem C2_effect_ordering :
    (∀ (st : Store) (room_id c : String) (mref : Option String) (user : User)
       (now : Nat) (nextId : String) (rl : List Room) (room : Room),
       (parseIntJS room_id).isNone = false → c ≠ "" → ¬ c.length > 1024 →
       st.roomSelect room_id = .ok rl → rl.head? = some room → room.type = 1 →
       st.messageInsert (buildMessage room_id c nextId user room mref now) = .ok () →
       st.publish "stargate" (.messageCreate (createEventData room c mref nextId now user)) = .ok () →
       respStatus (createHandler st room_id (.strV c) mref user now nextId) = some 200 ∧
       idxOf isPersist (traceOf (createHandler st room_id (.strV c) mref user now nextId)) = some 2 ∧
       idxOf isRespond (traceOf (createHandler st room_id (.strV c) mref user now nextId)) = some 3 ∧
       idxOf isPublish (traceOf (createHandler st room_id (.strV c) mref user now nextId)) = some 4) ∧
    (∀ (st : Store) (room_id message_id : String) (user : User) (rl : List Room)
       (room : Room) (ml : List IMessage) (message : IMessage),
       (parseIntJS room_id).isNone = false → (parseIntJS message_id).isNone = false →
       st.roomSelect room_id = .ok rl → rl.head? = some room →
       st.messageSelect message_id = .ok ml → ml.head? = some message →
       st.messageDelete message.id message.created_at message.room_id = .ok () →
       st.publish "stargate" (.messageDelete (deleteEventData message room user)) = .ok () →
       (deleteHandler st room_id message_id user).1.status = 202 ∧
       idxOf isPersist (deleteHandler st room_id message_id user).2.1 = some 2 ∧
       idxOf isPublish (deleteHandler st room_id message_id user).2.1 = some 3 ∧
       idxOf isRespond (deleteHandler st room_id message_id user).2.1 = some 4) := by
  constructor
  · intro st room_id c mref user now nextId rl room h1 h2 h3 h4 h5 h6 h7 h8
    rw [createHandler_success st room_id c mref user now nextId rl room
      h1 h2 h3 h4 h5 h6 h7 h8]
    refine ⟨rfl, ?_, ?_, ?_⟩ <;>
      simp [traceOf, idxOf, isPersist, isRespond, isPublish]
  · intro st room_id message_id user rl room ml message h1 h2 h3 h4 h5 h6 h7 h8
    rw [deleteHandler_success st room_id message_id user rl room ml message h1 h2 h3 h4 h5 h6 h7 h8]
    refine ⟨rfl, ?_, ?_, ?_⟩ <;> simp [idxOf, isPersist, isRespond, isPublish]

/-- Claim C2 witness: both ordering statements instantiated on a concrete
store, for a create of `"hello"` into `room1` and a delete of `msgHome`. -/
theorem C2_effect_ordering_witness :
    respStatus (createHandler (pureStore [room1] []) "1" (.strV "hello") none sampleUser 4 "8") = some 200 ∧
    idxOf isPersist (traceOf (createHandler (pureStore [room1] []) "1" (.strV "hello") none sampleUser 4 "8")) = some 2 ∧
    idxOf isRespond (traceOf (createHandler (pureStore [room1] []) "1" (.strV "hello") none sampleUser 4 "8")) = some 3 ∧
    idxOf isPublish (traceOf (createHandler (pureStore [room1] []) "1" (.strV "hello") none sampleUser 4 "8")) = some 4 ∧
    (deleteHandler (pureStore [room1] [msgHome]) "1" "8" sampleUser).1.status = 202 ∧
    idxOf isPersist (deleteHandler (pureStore [room1] [msgHome]) "1" "8" sampleUser).2.1 = some 2 ∧
    idxOf isPublish (deleteHandler (pureStore [room1] [msgHome]) "1" "8" sampleUser).2.1 = some 3 ∧
    idxOf isRespond (deleteHandler (pureStore [room1] [msgHome]) "1" "8" sampleUser).2.1 = some 4 :=
  have hc := C2_effect_ordering.1 (pureStore [room1] []) "1" "hello" none sampleUser 4 "8"
    [room1] room1 (by decide) (by decide) (by decide) rfl rfl rfl rfl rfl
  have hd := C2_effect_ordering.2 (pureStore [room1] [msgHome]) "1" "8" sampleUser [room1] room1
    [msgHome] msgHome (by decide) (by decide) rfl rfl rfl rfl rfl rfl
  ⟨hc.1, hc.2.1, hc.2.2.1, hc.2.2.2, hd.1, hd.2.1, hd.2.2.1, hd.2.2.2⟩

/-! ### Claim C3 — unsupported room type -/

/-- Claim C3 counterexample: the claim asserts that a create on an existing
room of type other than `1` short-circuits with no message id assigned.  On
the code `generateSnowflake(MESSAGE_WORKER_ID)` runs at line 59, before the
`switch (room.type)`: posting to the type-2 room yields the
unsupported-room-type rejection, yet the generator call sits at index 1 of
the effect trace — an id was assigned. -/
theorem C3_snowflake_assigned_counterexample :
    room2.type ≠ 1 ∧
    createHandler (pureStore [room2] []) "2" (.strV "hi") none sampleUser 0 "77" =
      .ok (⟨400, .msg "This room does not support message sending."⟩,
           [.roomSelect "2", .snowflake MESSAGE_WORKER_ID,
            .respond ⟨400, .msg "This room does not support message sending."⟩]) ∧
    idxOf isSnowflake [.roomSelect "2", .snowflake MESSAGE_WORKER_ID,
      .respond ⟨400, .msg "This room does not support message sending."⟩] = some 1 :=
  ⟨by decide, by rfl, by decide⟩

/-- Claim C3, amended: a create request on an existing room whose type is
not `1` is rejected at the dispatch step with the unsupported-room-type
error, no record is written and no event is published — but a message id
*is* assigned, since the snowflake generator is invoked before the
dispatch. -/
theorem C3_unsupported_room_short_circuit (st : Store) (room_id c : String)
    (mref : Option String) (user : User) (now : Nat) (nextId : String)
    (rl : List Room) (room : Room)
    (h1 : (parseIntJS room_id).isNone = false)
    (h2 : c ≠ "") (h3 : ¬ c.length > 1024)
    (h4 : st.roomSelect room_id = .ok rl) (h5 : rl.head? = some room)
    (h6 : room.type ≠ 1) :
    createHandler st room_id (.strV c) mref user now nextId =
      .ok (⟨400, .msg "This room does not support message sending."⟩,
           [.roomSelect room_id, .snowflake MESSAGE_WORKER_ID,
            .respond ⟨400, .msg "This room does not support message sending."⟩]) ∧
    idxOf isPersist [.roomSelect room_id, .snowflake MESSAGE_WORKER_ID,
      .respond ⟨400, .msg "This room does not support message sending."⟩] = none ∧
    idxOf isPublish [.roomSelect room_id, .snowflake MESSAGE_WORKER_ID,
      .respond ⟨400, .msg "This room does not support message sending."⟩] = none ∧
    idxOf isSnowflake [.roomSelect room_id, .snowflake MESSAGE_WORKER_ID,
      .respond ⟨400, .msg "This room does not support message sending."⟩] = some 1 := by
  refine ⟨createHandler_unsupported st room_id c mref user now nextId rl room
    h1 h2 h3 h4 h5 h6, ?_, ?_, ?_⟩ <;>
    simp [idxOf, isPersist, isPublish, isSnowflake]

/-- Claim C3 witness: the amended theorem applied to the concrete type-2
room. -/
theorem C3_unsupported_room_short_circuit_witness :
    createHandler (pureStore [room2] []) "2" (.strV "hi") none sampleUser 0 "77" =
      .ok (⟨400, .msg "This room does not support message sending."⟩,
           [.roomSelect "2", .snowflake MESSAGE_WORKER_ID,
            .respond ⟨400, .msg "This room does not support message sending."⟩]) :=
  (C3_unsupported_room_short_circuit (pureStore [room2] []) "2" "hi" none sampleUser 0 "77"
    [room2] room2 (by decide) (by decide) (by decide) rfl rfl (by decide)).1

/-! ### Claim C4 — malformed room ids across the three operations -/

/-- Claim C4 counterexample: the claim asserts that a room id failing
integer parsing makes all three operations return the invalid-id client
error with no storage lookup.  The typing route has no such check: with the
unparseable id `"abc"` it performs the room lookup (storage effect at index
0) and answers `404`, not an invalid-id `400`. -/
theorem C4_typing_skips_validation_counterexample :
    (parseIntJS "abc").isNone = true ∧
    typingHandler (pureStore [] []) "abc" sampleUser =
      (⟨404, .msg "The room you were looking for does not exist."⟩,
       [.roomSelect "abc",
        .respond ⟨404, .msg "The room you were looking for does not exist."⟩], []) ∧
    idxOf isStorage [.roomSelect "abc",
      .respond ⟨404, .msg "The room you were looking for does not exist."⟩] = some 0 ∧
    (typingHandler (pureStore [] []) "abc" sampleUser).1.status ≠ 400 := by
  decide

/-- Claim C4, amended: for every room id that fails integer parsing, the
create and delete operations return the invalid-id client error with no
storage, bus or generator call; the typing operation, however, performs no
id validation — it issues the room lookup on the raw id and never returns
an invalid-id error for it. -/
theorem C4_invalid_room_id (room_id : String)
    (h : (parseIntJS room_id).isNone = true) :
    (∀ (st : Store) (content : JsVal) (mref : Option String) (user : User)
       (now : Nat) (nextId : String),
       createHandler st room_id content mref user now nextId =
         .ok (⟨400, .msg "Invalid room id"⟩, [.respond ⟨400, .msg "Invalid room id"⟩])) ∧
    (∀ (st : Store) (message_id : String) (user : User),
       deleteHandler st room_id message_id user =
         (⟨400, .msg "Invalid room ID."⟩, [.respond ⟨400, .msg "Invalid room ID."⟩], [])) ∧
    (∀ (rooms : List Room) (messages : List IMessage) (user : User),
       Effect.roomSelect room_id ∈ (typingHandler (pureStore rooms messages) room_id user).2.1 ∧
       (typingHandler (pureStore rooms messages) room_id user).1.status ≠ 400) := by
  refine ⟨?_, ?_, ?_⟩
  · intro st content mref user now nextId
    simp [createHandler, h]
  · intro st message_id user
    simp [deleteHandler, deleteFlowBody, h]
  · intro rooms messages user
    cases hh : ((rooms.filter (fun r => r.id == room_id)).take 1).head? with
    | none => simp [typingHandler, typingFlowBody, pureStore, hh]
    | some room => simp [typingHandler, typingFlowBody, pureStore, hh]

/-- Claim C4 witness: the amended theorem at the unparseable id `"abc"`. -/
theorem C4_invalid_room_id_witness :
    createHandler (pureStore [] []) "abc" (.strV "hi") none sampleUser 0 "1" =
      .ok (⟨400, .msg "Invalid room id"⟩, [.respond ⟨400, .msg "Invalid room id"⟩]) ∧
    deleteHandler (pureStore [] []) "abc" "8" sampleUser =
      (⟨400, .msg "Invalid room ID."⟩, [.respond ⟨400, .msg "Invalid room ID."⟩], []) ∧
    Effect.roomSelect "abc" ∈ (typingHandler (pureStore [] []) "abc" sampleUser).2.1 :=
  have h := C4_invalid_room_id "abc" (by decide)
  ⟨h.1 (pureStore [] []) (.strV "hi") none sampleUser 0 "1",
   h.2.1 (pureStore [] []) "8" sampleUser,
   (h.2.2 [] [] sampleUser).1⟩

/-! ### Claim C5 — the create validation accepts negative room ids -/

/-- Claim C5 counterexample: the claim asserts that a `room_id` that does
not parse as a *non-negative* integer is rejected at validation.  The
code's check is only `isNaN(parseInt(room_id))`: the negative id `"-5"`
parses to `-5`, passes validation, and the request proceeds to the room
lookup (storage effect), ending in `404` rather than a validation
rejection. -/
theorem C5_negative_id_counterexample :
    parseIntJS "-5" = some (-5) ∧
    createHandler (pureStore [] []) "-5" (.strV "hi") none sampleUser 0 "1" =
      .ok (⟨404, .msg "The room you were looking for does not exist."⟩,
           [.roomSelect "-5",
            .respond ⟨404, .msg "The room you were looking for does not exist."⟩]) :=
  ⟨by decide, by rfl⟩

/-- Claim C5, amended: the create flow's id gate is exactly
`isNaN(parseInt(room_id))`: a request is stopped with the invalid-id
rejection iff `parseInt` yields no number, and whenever it yields any
number — including negative ones such as `"-5"` — the request (with
well-formed content) proceeds to the room-resolution stage. -/
theorem C5_room_id_gate :
    (∀ (room_id : String) (st : Store) (content : JsVal) (mref : Option String)
       (user : User) (now : Nat) (nextId : String), (parseIntJS room_id).isNone = true →
       createHandler st room_id content mref user now nextId =
         .ok (⟨400, .msg "Invalid room id"⟩, [.respond ⟨400, .msg "Invalid room id"⟩])) ∧
    (∀ (room_id c : String) (rooms : List Room) (messages : List IMessage)
       (mref : Option String) (user : User) (now : Nat) (nextId : String),
       (parseIntJS room_id).isNone = false → c ≠ "" → ¬ c.length > 1024 →
       Effect.roomSelect room_id ∈
         traceOf (createHandler (pureStore rooms messages) room_id (.strV c) mref user now nextId)) ∧
    parseIntJS "-5" = some (-5) := by
  refine ⟨?_, ?_, by decide⟩
  · intro room_id st content mref user now nextId h
    simp [createHandler, h]
  · intro room_id c rooms messages mref user now nextId h1 h2 h3
    have h4 : (pureStore rooms messages).roomSelect room_id =
        .ok ((rooms.filter (fun r => r.id == room_id)).take 1) := rfl
    cases hh : ((rooms.filter (fun r => r.id == room_id)).take 1).head? with
    | none =>
      rw [createHandler_room_miss (pureStore rooms messages) room_id c mref user
        now nextId _ h1 h2 h3 h4 hh]
      simp [traceOf]
    | some room =>
      by_cases ht : room.type = 1
      · rw [createHandler_success (pureStore rooms messages) room_id c mref user
          now nextId _ room h1 h2 h3 h4 hh ht rfl rfl]
        simp [traceOf]
      · rw [createHandler_unsupported (pureStore rooms messages) room_id c mref user
          now nextId _ room h1 h2 h3 h4 hh ht]
        simp [traceOf]

/-- Claim C5 witness: both directions of the gate at concrete inputs — the
unparseable `"abc"` is rejected, the negative `"-5"` proceeds to room
resolution. -/
theorem C5_room_id_gate_witness :
    createHandler (pureStore [] []) "abc" (.strV "hi") none sampleUser 0 "1" =
      .ok (⟨400, .msg "Invalid room id"⟩, [.respond ⟨400, .msg "Invalid room id"⟩]) ∧
    Effect.roomSelect "-5" ∈
      traceOf (createHandler (pureStore [] []) "-5" (.strV "hi") none sampleUser 0 "1") :=
  ⟨C5_room_id_gate.1 "abc" (pureStore [] []) (.strV "hi") none sampleUser 0 "1" (by decide),
   C5_room_id_gate.2.1 "-5" "hi" [] [] none sampleUser 0 "1" (by decide) (by decide) (by decide)⟩

/-! ### Claim C6 — content length validation and exact storage -/

/-- Claim C6: a create request whose content is a string of length 0 or of
length greater than 1024 is answered with a `400` validation error and its
trace is nothing but the response — no storage, bus or generator call; and
for content of length 1 through 1024, with all other validations passing,
the stored record's `content` field equals the input exactly. -/
theorem C6_content_validation :
    (∀ (st : Store) (room_id c : String) (mref : Option String) (user : User)
       (now : Nat) (nextId : String), c.length = 0 →
       respStatus (createHandler st room_id (.strV c) mref user now nextId) = some 400 ∧
       (traceOf (createHandler st room_id (.strV c) mref user now nextId)).all isRespond = true) ∧
    (∀ (st : Store) (room_id c : String) (mref : Option String) (user : User)
       (now : Nat) (nextId : String), c.length > 1024 →
       respStatus (createHandler st room_id (.strV c) mref user now nextId) = some 400 ∧
       (traceOf (createHandler st room_id (.strV c) mref user now nextId)).all isRespond = true) ∧
    (∀ (st : Store) (room_id c : String) (mref : Option String) (user : User)
       (now : Nat) (nextId : String) (rl : List Room) (room : Room),
       1 ≤ c.length → c.length ≤ 1024 →
       (parseIntJS room_id).isNone = false →
       st.roomSelect room_id = .ok rl → rl.head? = some room → room.type = 1 →
       st.messageInsert (buildMessage room_id c nextId user room mref now) = .ok () →
       st.publish "stargate" (.messageCreate (createEventData room c mref nextId now user)) = .ok () →
       Effect.messageInsert (buildMessage room_id c nextId user room mref now) ∈
         traceOf (createHandler st room_id (.strV c) mref user now nextId) ∧
       (buildMessage room_id c nextId user room mref now).content = c) := by
  refine ⟨?_, ?_, ?_⟩
  · intro st room_id c mref user now nextId hc
    have hc' : c = "" := by
      cases c with
      | mk data =>
        cases data with
        | nil => rfl
        | cons a l => simp [String.length] at hc
    subst hc'
    by_cases h : (parseIntJS room_id).isNone = true
    · simp [createHandler, h, respStatus, traceOf, isRespond]
    · have h' : (parseIntJS room_id).isNone = false := by
        cases hx : (parseIntJS room_id).isNone with
        | false => rfl
        | true => exact absurd hx h
      simp [createHandler, h', jsFalsy, respStatus, traceOf, isRespond]
  · intro st room_id c mref user now nextId hc
    have h2 : c ≠ "" := by
      intro he
      rw [he] at hc
      exact absurd hc (by decide)
    have hf : jsFalsy (.strV c) = false := by
      simp [jsFalsy, h2]
    by_cases h : (parseIntJS room_id).isNone = true
    · simp [createHandler, h, respStatus, traceOf, isRespond]
    · have h' : (parseIntJS room_id).isNone = false := by
        cases hx : (parseIntJS room_id).isNone with
        | false => rfl
        | true => exact absurd hx h
      simp [createHandler, h', hf, hc, respStatus, traceOf, isRespond]
  · intro st room_id c mref user now nextId rl room hc1 hc2 h1 h4 h5 h6 h7 h8
    have h2 : c ≠ "" := by
      intro he
      rw [he] at hc1
      exact absurd hc1 (by decide)
    have h3 : ¬ c.length > 1024 := by omega
    rw [createHandler_success st room_id c mref user now nextId rl room
      h1 h2 h3 h4 h5 h6 h7 h8]
    exact ⟨by simp [traceOf], rfl⟩

/-- Claim C6 witness: the three parts at concrete inputs — empty content,
1025-character content, and the stored copy of `"hello"`. -/
theorem C6_content_validation_witness :
    (respStatus (createHandler (pureStore [room1] []) "1" (.strV "") none sampleUser 0 "1") = some 400 ∧
     (traceOf (createHandler (pureStore [room1] []) "1" (.strV "") none sampleUser 0 "1")).all isRespond = true) ∧
    (respStatus (createHandler (pureStore [room1] []) "1"
        (.strV (String.mk (List.replicate 1025 'a'))) none sampleUser 0 "1") = some 400 ∧
     (traceOf (createHandler (pureStore [room1] []) "1"
        (.strV (String.mk (List.replicate 1025 'a'))) none sampleUser 0 "1")).all isRespond = true) ∧
    Effect.messageInsert (buildMessage "1" "hello" "8" sampleUser room1 none 4) ∈
      traceOf (createHandler (pureStore [room1] []) "1" (.strV "hello") none sampleUser 4 "8") ∧
    (buildMessage "1" "hello" "8" sampleUser room1 none 4).content = "hello" :=
  ⟨C6_content_validation.1 (pureStore [room1] []) "1" "" none sampleUser 0 "1" (by decide),
   C6_content_validation.2.1 (pureStore [room1] []) "1" (String.mk (List.replicate 1025 'a'))
     none sampleUser 0 "1" (by
       show (List.replicate 1025 'a').length > 1024
       rw [List.length_replicate]
       omega),
   C6_content_validation.2.2 (pureStore [room1] []) "1" "hello" none sampleUser 4 "8"
     [room1] room1 (by decide) (by decide) (by decide) rfl rfl rfl rfl rfl⟩

/-! ### Claim C7 — admission limiter -/

/-- Claim C7: per identity (the raw `authorization` header value), at most
50 create attempts are admitted within a 100-millisecond window: of 51
attempts falling in one window at least one is denied; at most 50 attempts
are all admitted; and a denied attempt is answered `429` with no further
pipeline stage — its trace holds nothing but the response, so no storage,
bus or generator call happens.  (The express-rate-limit middleware is not
part of the sources; its admission policy is modelled from the spec.) -/
theorem C7_admission_limit :
    (∀ (key : String) (attempts : List (Nat × String)) (t0 : Nat),
       (∀ t ∈ attemptsOf key attempts, t0 ≤ t ∧ t < t0 + limiterWindowMs) →
       (attemptsOf key attempts).length = limiterMax + 1 →
       false ∈ limiterDecisions key attempts) ∧
    (∀ (key : String) (attempts : List (Nat × String)),
       (attemptsOf key attempts).length ≤ limiterMax →
       limiterDecisions key attempts =
         List.replicate (attemptsOf key attempts).length true) ∧
    (∀ (st : Store) (room_id : String) (content : JsVal) (mref : Option String)
       (user : User) (now : Nat) (nextId : String),
       createEndpoint false st room_id content mref user now nextId =
         .ok (⟨429, .msg "Too many requests, please try again later."⟩,
              [.respond ⟨429, .msg "Too many requests, please try again later."⟩])) := by
  refine ⟨?_, ?_, ?_⟩
  · intro key attempts t0 hW hL
    have hb := runLimiter_window_bound (attemptsOf key attempts) [] t0
      (fun s hs => absurd hs (List.not_mem_nil s)) hW
    simp only [List.length_nil, Nat.zero_add, Nat.zero_max] at hb
    apply count_true_lt_mem_false
    show (runLimiter [] (attemptsOf key attempts)).count true <
      (runLimiter [] (attemptsOf key attempts)).length
    rw [runLimiter_length, hL]
    omega
  · intro key attempts h
    exact runLimiter_all_admitted (attemptsOf key attempts) [] (by simpa using h)
  · intro st room_id content mref user now nextId
    rfl

/-- Claim C7 witness: 51 in-window attempts of identity `"tok"` produce a
denial, 50 attempts are all admitted, and the denied endpoint call answers
`429` with a response-only trace. -/
theorem C7_admission_limit_witness :
    false ∈ limiterDecisions "tok" attempts51 ∧
    limiterDecisions "tok" attempts50 =
      List.replicate (attemptsOf "tok" attempts50).length true ∧
    createEndpoint false (pureStore [] []) "1" (.strV "hi") none sampleUser 0 "1" =
      .ok (⟨429, .msg "Too many requests, please try again later."⟩,
           [.respond ⟨429, .msg "Too many requests, please try again later."⟩]) :=
  ⟨C7_admission_limit.1 "tok" attempts51 0 (by decide) (by decide),
   C7_admission_limit.2.1 "tok" attempts50 (by decide),
   C7_admission_limit.2.2 (pureStore [] []) "1" (.strV "hi") none sampleUser 0 "1"⟩

/-! ### Claim C8 — the delete event's author is the deleting caller -/

/-- Claim C8: on every successful delete, the published `message_delete`
event carries the deleted message's content and the deleting caller's
identity in its `author` field — not the original message author's. -/
theorem C8_delete_event_author (st : Store) (room_id message_id : String)
    (user : User) (rl : List Room) (room : Room) (ml : List IMessage)
    (message : IMessage)
    (h1 : (parseIntJS room_id).isNone = false)
    (h2 : (parseIntJS message_id).isNone = false)
    (h3 : st.roomSelect room_id = .ok rl) (h4 : rl.head? = some room)
    (h5 : st.messageSelect message_id = .ok ml) (h6 : ml.head? = some message)
    (h7 : st.messageDelete message.id message.created_at message.room_id = .ok ())
    (h8 : st.publish "stargate" (.messageDelete (deleteEventData message room user)) = .ok ()) :
    Effect.publish "stargate" (.messageDelete (deleteEventData message room user)) ∈
      (deleteHandler st room_id message_id user).2.1 ∧
    (deleteEventData message room user).content = message.content ∧
    (deleteEventData message room user).author.id = user.id ∧
    (user.id ≠ message.author_id →
      (deleteEventData message room user).author.id ≠ message.author_id) := by
  rw [deleteHandler_success st room_id message_id user rl room ml message h1 h2 h3 h4 h5 h6 h7 h8]
  exact ⟨by simp, rfl, rfl, fun h => h⟩

/-- Claim C8 witness: deleting `msgOther` (written by user `"100"`) as the
caller `"200"` publishes an event whose author id is `"200"`, not the
message author's. -/
theorem C8_delete_event_author_witness :
    Effect.publish "stargate" (.messageDelete (deleteEventData msgOther room1 sampleDeleter)) ∈
      (deleteHandler (pureStore [room1, room3] [msgOther]) "1" "9" sampleDeleter).2.1 ∧
    (deleteEventData msgOther room1 sampleDeleter).content = msgOther.content ∧
    (deleteEventData msgOther room1 sampleDeleter).author.id = sampleDeleter.id ∧
    (deleteEventData msgOther room1 sampleDeleter).author.id ≠ msgOther.author_id :=
  have h := C8_delete_event_author (pureStore [room1, room3] [msgOther]) "1" "9" sampleDeleter
    [room1] room1 [msgOther] msgOther (by decide) (by decide) rfl rfl rfl rfl rfl rfl
  ⟨h.1, h.2.1, h.2.2.1, h.2.2.2 (by decide)⟩

/-! ### Claim C9 — the delete and typing flow boundaries catch all errors -/

/-- Claim C9: every error thrown inside the delete or typing flow body is
caught at the flow boundary, logged, and converted into the generic `500`
server-error response; neither handler ever lets the exception surface. -/
theorem C9_error_boundary :
    (∀ (st : Store) (room_id message_id : String) (user : User) (e : String),
       deleteFlowBody st room_id message_id user = .error e →
       deleteHandler st room_id message_id user =
         (⟨500, .msg "Interal Server Error"⟩, [], [e])) ∧
    (∀ (st : Store) (room_id : String) (user : User) (e : String),
       typingFlowBody st room_id user = .error e →
       typingHandler st room_id user =
         (⟨500, .msg "Interal Server Error"⟩, [], [e])) := by
  constructor
  · intro st room_id message_id user e h
    simp [deleteHandler, h]
  · intro st room_id user e h
    simp [typingHandler, h]

/-- Claim C9 witness: against a store whose reads reject, both handlers
log the error and answer the generic `500`. -/
theorem C9_error_boundary_witness :
    deleteHandler failingStore "1" "9" sampleDeleter =
      (⟨500, .msg "Interal Server Error"⟩, [], ["storage failure"]) ∧
    typingHandler failingStore "1" sampleUser =
      (⟨500, .msg "Interal Server Error"⟩, [], ["storage failure"]) :=
  ⟨C9_error_boundary.1 failingStore "1" "9" sampleDeleter "storage failure" rfl,
   C9_error_boundary.2 failingStore "1" sampleUser "storage failure" rfl⟩

/-! ### Claim C10 — the delete event reports the URL's room -/

/-- Claim C10: the delete flow looks the message up by id alone, and the
published `message_delete` event takes `room_id` and `space_id` from the
room resolved from the request URL; so whenever the stored message's
`room_id` differs from the URL's room id, the event names the URL's room,
not the room the message belonged to. -/
theorem C10_delete_event_room_from_url (st : Store) (room_id message_id : String)
    (user : User) (rl : List Room) (room : Room) (ml : List IMessage)
    (message : IMessage)
    (h1 : (parseIntJS room_id).isNone = false)
    (h2 : (parseIntJS message_id).isNone = false)
    (h3 : st.roomSelect room_id = .ok rl) (h4 : rl.head? = some room)
    (h5 : st.messageSelect message_id = .ok ml) (h6 : ml.head? = some message)
    (h7 : st.messageDelete message.id message.created_at message.room_id = .ok ())
    (h8 : st.publish "stargate" (.messageDelete (deleteEventData message room user)) = .ok ()) :
    (deleteEventData message room user).room_id = room.id ∧
    (deleteEventData message room user).space_id = room.space_id ∧
    Effect.publish "stargate" (.messageDelete (deleteEventData message room user)) ∈
      (deleteHandler st room_id message_id user).2.1 ∧
    (message.room_id ≠ room.id →
      (deleteEventData message room user).room_id ≠ message.room_id) := by
  rw [deleteHandler_success st room_id message_id user rl room ml message h1 h2 h3 h4 h5 h6 h7 h8]
  exact ⟨rfl, rfl, by simp, fun h he => h he.symm⟩

/-- Claim C10 witness: deleting message `"9"` (stored in room `"3"`)
through room `"1"`'s URL publishes an event naming room `"1"`, not room
`"3"`. -/
theorem C10_delete_event_room_witness :
    (deleteEventData msgOther room1 sampleDeleter).room_id = room1.id ∧
    (deleteEventData msgOther room1 sampleDeleter).space_id = room1.space_id ∧
    (deleteEventData msgOther room1 sampleDeleter).room_id ≠ msgOther.room_id :=
  have h := C10_delete_event_room_from_url (pureStore [room1, room3] [msgOther]) "1" "9"
    sampleDeleter [room1] room1 [msgOther] msgOther (by decide) (by decide) rfl rfl rfl rfl rfl rfl
  ⟨h.1, h.2.1, h.2.2.2 (by decide)⟩

end Equinox
